import Mathlib

/-!
A shallow embedding of the interaction data model of `anda_core`
(`src/anda_core/src/model/mod.rs`), together with proofs of the
specification's properties about it.

Rust `u64` counters are modelled as `Nat` with explicit clamping at
`U64_MAX` where the source uses `saturating_add`.  Rust `String` fields
are Lean `String`s; `Option` fields are Lean `Option`s.  `serde_json`
values are modelled by the inductive `Json` below, and the serde-derived
serializers (with their `#[serde(skip_serializing_if = "Option::is_none")]`
attributes) are translated field by field.
-/

namespace Anda

/-- The largest value representable in a Rust `u64`. -/
def U64_MAX : Nat := 2 ^ 64 - 1

/-- Rust `u64::saturating_add`: addition clamped at `u64::MAX`. -/
def saturatingAdd (a b : Nat) : Nat := min (a + b) U64_MAX

/-- `Usage` from `model/mod.rs`: input tokens, output tokens and request
count for agent/tool executions.  Fields are Rust `u64` counters. -/
structure Usage where
  input_tokens : Nat
  output_tokens : Nat
  requests : Nat
deriving DecidableEq, Repr

/-- The value a Rust `u64` field takes is always at most `u64::MAX`;
this predicate records that typing fact for a `Usage` value. -/
def Usage.Wf (u : Usage) : Prop :=
  u.input_tokens ≤ U64_MAX ∧ u.output_tokens ≤ U64_MAX ∧ u.requests ≤ U64_MAX

instance (u : Usage) : Decidable u.Wf := by
  unfold Usage.Wf; infer_instance

/-- `Usage::default()`: all three counters zero (Rust `#[derive(Default)]`). -/
def Usage.default : Usage := ⟨0, 0, 0⟩

/-- `Usage::accumulate`: each counter is updated independently by
`saturating_add` with the corresponding counter of `other`.  The Rust
method mutates `self`; we model it as returning the updated value. -/
def Usage.accumulate (u other : Usage) : Usage :=
  { input_tokens := saturatingAdd u.input_tokens other.input_tokens
    output_tokens := saturatingAdd u.output_tokens other.output_tokens
    requests := saturatingAdd u.requests other.requests }

/-- A model of `serde_json::Value`, the JSON wire form every envelope is
serialized into.  Numbers we serialize are the `u64` counters, modelled
as `Nat`. -/
inductive Json where
  | null
  | bool (b : Bool)
  | num (n : Nat)
  | str (s : String)
  | arr (elems : List Json)
  | obj (fields : List (String × Json))

/-- Extract the string of a JSON string value. -/
def Json.asStr : Json → Option String
  | .str s => some s
  | _ => none

/-- Extract the number of a JSON numeric value. -/
def Json.asNat : Json → Option Nat
  | .num n => some n
  | _ => none

/-- Extract the boolean of a JSON boolean value. -/
def Json.asBool : Json → Option Bool
  | .bool b => some b
  | _ => none

/-- Extract the field list of a JSON object. -/
def Json.objFields : Json → Option (List (String × Json))
  | .obj fs => some fs
  | _ => none

/-- The keys present in a serialized JSON object. -/
def Json.keys : Json → List String
  | .obj fs => fs.map Prod.fst
  | _ => []

/-- serde's `#[serde(skip_serializing_if = "Option::is_none")]`: the field
is omitted from the object when the option is `none`. -/
def optField {α : Type} (key : String) (enc : α → Json) : Option α → List (String × Json)
  | none => []
  | some v => [(key, enc v)]

/-- serde's plain serialization of an `Option` field without a skip
attribute: `none` is emitted as JSON `null`. -/
def jsonOfOption {α : Type} (enc : α → Json) : Option α → Json
  | none => Json.null
  | some v => enc v

/-- serde's deserialization of an `Option` field: a missing key or a
`null` value yields `none`; any other value is decoded and wrapped. -/
def decodeOptField {α : Type} (fs : List (String × Json)) (key : String)
    (dec : Json → Option α) : Option (Option α) :=
  match List.lookup key fs with
  | none => some none
  | some .null => some none
  | some v => (dec v).map some

/-- Decode every element of a JSON list, failing if any element fails. -/
def decodeListWith {α : Type} (dec : Json → Option α) : List Json → Option (List α)
  | [] => some []
  | x :: rest => (dec x).bind fun a => (decodeListWith dec rest).map (a :: ·)

/-- Decode a JSON array into a list. -/
def decodeArrWith {α : Type} (dec : Json → Option α) : Json → Option (List α)
  | .arr xs => decodeListWith dec xs
  | _ => none

/-- Modelled from the spec: `Principal` comes from the external `candid`
crate (only `use candid::Principal` appears in the covered source).  The
spec treats it as an opaque identity value; we model it as its byte
sequence, with `Principal::anonymous()` the well-known anonymous
identity (the single byte `0x04`). -/
structure Principal where
  bytes : List Nat
deriving DecidableEq

/-- Modelled from the spec: the well-known anonymous principal value. -/
def Principal.anonymous : Principal := ⟨[4]⟩

/-- Hex digit character for a value below 16. -/
def hexDigitChar (n : Nat) : Char :=
  if n < 10 then Char.ofNat (48 + n) else Char.ofNat (87 + n)

/-- Modelled from the spec: the opaque textual wire form of a principal,
modelled as an injective hex rendering of its bytes. -/
def Principal.toText (p : Principal) : String :=
  String.mk ((p.bytes.map fun b => [hexDigitChar (b / 16), hexDigitChar (b % 16)]).flatten)

/-- Value of a hex digit character. -/
def hexDigitVal (c : Char) : Option Nat :=
  if 48 ≤ c.toNat ∧ c.toNat ≤ 57 then some (c.toNat - 48)
  else if 97 ≤ c.toNat ∧ c.toNat ≤ 102 then some (c.toNat - 87)
  else none

/-- Parse a list of hex digit characters into bytes, two digits a byte. -/
def bytesOfHexChars : List Char → Option (List Nat)
  | [] => some []
  | c₁ :: c₂ :: rest =>
      (hexDigitVal c₁).bind fun h =>
      (hexDigitVal c₂).bind fun l =>
      (bytesOfHexChars rest).map fun bs => (16 * h + l) :: bs
  | _ => none

/-- Modelled from the spec: parse the opaque textual wire form back into
a principal. -/
def Principal.fromText (s : String) : Option Principal :=
  (bytesOfHexChars s.data).map Principal.mk

/-- Principals serialize as their textual form (a JSON string). -/
def Principal.toJson (p : Principal) : Json := .str (Principal.toText p)

/-- Decode a principal from its JSON string form. -/
def Principal.fromJson (j : Json) : Option Principal :=
  (Json.asStr j).bind Principal.fromText

/-- `pub const ANONYMOUS: Principal = Principal::anonymous();` from
`model/mod.rs`: the sentinel identity for unauthenticated or
system-originated requests. -/
def ANONYMOUS : Principal := Principal.anonymous

/-- Modelled from the spec: thread identity is an opaque foreign key
into the external thread store (`model/thread.rs` is outside the covered
core); modelled as an opaque id string serialized as a JSON string. -/
structure ThreadId where
  id : String
deriving DecidableEq

/-- Threads serialize as their opaque id string. -/
def ThreadId.toJson (t : ThreadId) : Json := .str t.id

/-- Decode a thread id from its JSON string form. -/
def ThreadId.fromJson (j : Json) : Option ThreadId :=
  (Json.asStr j).map ThreadId.mk

/-- Modelled from the spec: a resource reference is an opaque handle to
an attachment carrying a tag string usable for
`supported_resource_tags` matching (`model/resource.rs` is outside the
covered core). -/
structure Resource where
  tag : String
deriving DecidableEq

/-- Resources serialize as an object holding their tag. -/
def Resource.toJson (r : Resource) : Json := .obj [("tag", .str r.tag)]

/-- Decode a resource from its JSON object form. -/
def Resource.fromJson (j : Json) : Option Resource :=
  (Json.objFields j).bind fun fs =>
  ((List.lookup "tag" fs).bind Json.asStr).bind fun tag =>
  some ⟨tag⟩

/-- `RequestMeta` from `model/mod.rs`: routing/identity context for an
agent or tool request.  In the source only `thread` and `user` carry
`#[serde(skip_serializing_if = "Option::is_none")]`; `engine` does not. -/
structure RequestMeta where
  engine : Option Principal
  thread : Option ThreadId
  user : Option String
deriving DecidableEq

/-- serde serialization of `RequestMeta`: `engine` has no skip attribute
and is always emitted (`null` when absent); `thread` and `user` are
omitted when absent. -/
def RequestMeta.toJson (m : RequestMeta) : Json :=
  .obj ([("engine", jsonOfOption Principal.toJson m.engine)]
    ++ optField "thread" ThreadId.toJson m.thread
    ++ optField "user" Json.str m.user)

/-- serde deserialization of `RequestMeta`. -/
def RequestMeta.fromJson (j : Json) : Option RequestMeta :=
  (Json.objFields j).bind fun fs =>
  (decodeOptField fs "engine" Principal.fromJson).bind fun engine =>
  (decodeOptField fs "thread" ThreadId.fromJson).bind fun thread =>
  (decodeOptField fs "user" Json.asStr).bind fun user =>
  some ⟨engine, thread, user⟩

/-- `AgentInput` from `model/mod.rs`: a request to an agent. -/
structure AgentInput where
  name : String
  prompt : String
  resources : Option (List Resource)
  meta : Option RequestMeta
deriving DecidableEq

/-- `AgentInput::new`: the given name and prompt, optional fields absent. -/
def AgentInput.new (name prompt : String) : AgentInput :=
  { name := name, prompt := prompt, resources := none, meta := none }

/-- serde serialization of `AgentInput`; `resources` and `meta` carry
the skip attribute. -/
def AgentInput.toJson (x : AgentInput) : Json :=
  .obj ([("name", .str x.name), ("prompt", .str x.prompt)]
    ++ optField "resources" (fun rs => .arr (rs.map Resource.toJson)) x.resources
    ++ optField "meta" RequestMeta.toJson x.meta)

/-- serde deserialization of `AgentInput`. -/
def AgentInput.fromJson (j : Json) : Option AgentInput :=
  (Json.objFields j).bind fun fs =>
  ((List.lookup "name" fs).bind Json.asStr).bind fun name =>
  ((List.lookup "prompt" fs).bind Json.asStr).bind fun prompt =>
  (decodeOptField fs "resources" (decodeArrWith Resource.fromJson)).bind fun resources =>
  (decodeOptField fs "meta" RequestMeta.fromJson).bind fun meta =>
  some ⟨name, prompt, resources, meta⟩

/-- `ToolCall` from `model/mod.rs`: one requested function invocation;
`result` holds an arbitrary `serde_json::Value` once filled. -/
structure ToolCall where
  id : String
  name : String
  args : String
  result : Option Json

/-- serde serialization of `ToolCall`; only `result` carries the skip
attribute. -/
def ToolCall.toJson (c : ToolCall) : Json :=
  .obj ([("id", .str c.id), ("name", .str c.name), ("args", .str c.args)]
    ++ optField "result" (fun v => v) c.result)

/-- serde deserialization of `ToolCall`. -/
def ToolCall.fromJson (j : Json) : Option ToolCall :=
  (Json.objFields j).bind fun fs =>
  ((List.lookup "id" fs).bind Json.asStr).bind fun id =>
  ((List.lookup "name" fs).bind Json.asStr).bind fun name =>
  ((List.lookup "args" fs).bind Json.asStr).bind fun args =>
  (decodeOptField fs "result" some).bind fun result =>
  some ⟨id, name, args, result⟩

/-- `AgentOutput` from `model/mod.rs`: the result of an agent
execution. -/
structure AgentOutput where
  content : String
  usage : Usage
  thread : Option ThreadId
  failed_reason : Option String
  tool_calls : Option (List ToolCall)
  full_history : Option (List Json)
  resources : Option (List Resource)

/-- serde serialization of `Usage`: all three counters always present. -/
def Usage.toJson (u : Usage) : Json :=
  .obj [("input_tokens", .num u.input_tokens),
        ("output_tokens", .num u.output_tokens),
        ("requests", .num u.requests)]

/-- serde deserialization of `Usage`. -/
def Usage.fromJson (j : Json) : Option Usage :=
  (Json.objFields j).bind fun fs =>
  ((List.lookup "input_tokens" fs).bind Json.asNat).bind fun i =>
  ((List.lookup "output_tokens" fs).bind Json.asNat).bind fun o =>
  ((List.lookup "requests" fs).bind Json.asNat).bind fun r =>
  some ⟨i, o, r⟩

/-- serde serialization of `AgentOutput`; every optional field carries
the skip attribute. -/
def AgentOutput.toJson (x : AgentOutput) : Json :=
  .obj ([("content", .str x.content), ("usage", Usage.toJson x.usage)]
    ++ optField "thread" ThreadId.toJson x.thread
    ++ optField "failed_reason" Json.str x.failed_reason
    ++ optField "tool_calls" (fun cs => .arr (cs.map ToolCall.toJson)) x.tool_calls
    ++ optField "full_history" Json.arr x.full_history
    ++ optField "resources" (fun rs => .arr (rs.map Resource.toJson)) x.resources)

/-- serde deserialization of `AgentOutput`. -/
def AgentOutput.fromJson (j : Json) : Option AgentOutput :=
  (Json.objFields j).bind fun fs =>
  ((List.lookup "content" fs).bind Json.asStr).bind fun content =>
  ((List.lookup "usage" fs).bind Usage.fromJson).bind fun usage =>
  (decodeOptField fs "thread" ThreadId.fromJson).bind fun thread =>
  (decodeOptField fs "failed_reason" Json.asStr).bind fun failed_reason =>
  (decodeOptField fs "tool_calls" (decodeArrWith ToolCall.fromJson)).bind fun tool_calls =>
  (decodeOptField fs "full_history" (decodeArrWith some)).bind fun full_history =>
  (decodeOptField fs "resources" (decodeArrWith Resource.fromJson)).bind fun resources =>
  some ⟨content, usage, thread, failed_reason, tool_calls, full_history, resources⟩

/-- `ToolInput<T>` from `model/mod.rs`: a request to a tool, generic
over the argument payload type. -/
structure ToolInput (T : Type) where
  name : String
  args : T
  resources : Option (List Resource)
  meta : Option RequestMeta

/-- `ToolInput::new`: the given name and arguments, optional fields
absent. -/
def ToolInput.new {T : Type} (name : String) (args : T) : ToolInput T :=
  { name := name, args := args, resources := none, meta := none }

/-- serde serialization of `ToolInput<T>`, given the payload type's
serializer; `resources` and `meta` carry the skip attribute. -/
def ToolInput.toJson {T : Type} (encT : T → Json) (x : ToolInput T) : Json :=
  .obj ([("name", .str x.name), ("args", encT x.args)]
    ++ optField "resources" (fun rs => .arr (rs.map Resource.toJson)) x.resources
    ++ optField "meta" RequestMeta.toJson x.meta)

/-- serde deserialization of `ToolInput<T>`. -/
def ToolInput.fromJson {T : Type} (decT : Json → Option T) (j : Json) :
    Option (ToolInput T) :=
  (Json.objFields j).bind fun fs =>
  ((List.lookup "name" fs).bind Json.asStr).bind fun name =>
  ((List.lookup "args" fs).bind decT).bind fun args =>
  (decodeOptField fs "resources" (decodeArrWith Resource.fromJson)).bind fun resources =>
  (decodeOptField fs "meta" RequestMeta.fromJson).bind fun meta =>
  some ⟨name, args, resources, meta⟩

/-- `ToolOutput<T>` from `model/mod.rs`: the result of a tool
execution, generic over the output payload type. -/
structure ToolOutput (T : Type) where
  output : T
  resources : Option (List Resource)
  usage : Usage

/-- `ToolOutput::new`: the given output, no resources, default usage. -/
def ToolOutput.new {T : Type} (output : T) : ToolOutput T :=
  { output := output, resources := none, usage := Usage.default }

/-- serde serialization of `ToolOutput<T>`; only `resources` carries the
skip attribute, `usage` is always present. -/
def ToolOutput.toJson {T : Type} (encT : T → Json) (x : ToolOutput T) : Json :=
  .obj ([("output", encT x.output)]
    ++ optField "resources" (fun rs => .arr (rs.map Resource.toJson)) x.resources
    ++ [("usage", Usage.toJson x.usage)])

/-- serde deserialization of `ToolOutput<T>`. -/
def ToolOutput.fromJson {T : Type} (decT : Json → Option T) (j : Json) :
    Option (ToolOutput T) :=
  (Json.objFields j).bind fun fs =>
  ((List.lookup "output" fs).bind decT).bind fun output =>
  (decodeOptField fs "resources" (decodeArrWith Resource.fromJson)).bind fun resources =>
  ((List.lookup "usage" fs).bind Usage.fromJson).bind fun usage =>
  some ⟨output, resources, usage⟩

/-- `FunctionDefinition` from `model/mod.rs`: a callable function with
its metadata and JSON-schema parameters. -/
structure FunctionDefinition where
  name : String
  description : String
  parameters : Json
  strict : Option Bool

/-- `FunctionDefinition::name_with_prefix`: returns the definition with
the prefix string prepended to its name (`format!("{}{}", prefix,
self.name)`); all other fields are carried over unchanged. -/
def FunctionDefinition.name_with_prefix (d : FunctionDefinition) (pre : String) :
    FunctionDefinition :=
  { d with name := pre ++ d.name }

/-- serde serialization of `FunctionDefinition`; only `strict` carries
the skip attribute. -/
def FunctionDefinition.toJson (d : FunctionDefinition) : Json :=
  .obj ([("name", .str d.name), ("description", .str d.description),
         ("parameters", d.parameters)]
    ++ optField "strict" Json.bool d.strict)

/-- serde deserialization of `FunctionDefinition`. -/
def FunctionDefinition.fromJson (j : Json) : Option FunctionDefinition :=
  (Json.objFields j).bind fun fs =>
  ((List.lookup "name" fs).bind Json.asStr).bind fun name =>
  ((List.lookup "description" fs).bind Json.asStr).bind fun description =>
  (List.lookup "parameters" fs).bind fun parameters =>
  (decodeOptField fs "strict" Json.asBool).bind fun strict =>
  some ⟨name, description, parameters, strict⟩

/-- `Function` from `model/mod.rs`: a function definition together with
the resource tags it supports. -/
structure Function where
  definition : FunctionDefinition
  supported_resource_tags : List String

/-- `evaluate_tokens` from `model/mod.rs`: `content.len() / 3`, where
Rust `str::len` is the UTF-8 byte length. -/
def evaluate_tokens (content : String) : Nat :=
  content.utf8ByteSize / 3

/-- Helper: `accumulate` is commutative. -/
lemma accumulate_comm_aux (a b : Usage) :
    Usage.accumulate a b = Usage.accumulate b a := by
  cases a; cases b
  simp only [Usage.accumulate, saturatingAdd, Usage.mk.injEq]
  omega

/-- Helper: `accumulate` is associative. -/
lemma accumulate_assoc_aux (a b c : Usage) :
    Usage.accumulate (Usage.accumulate a b) c
      = Usage.accumulate a (Usage.accumulate b c) := by
  cases a; cases b; cases c
  simp only [Usage.accumulate, saturatingAdd, Usage.mk.injEq]
  omega

/-- Helper: accumulating two values into a ledger commutes. -/
lemma accumulate_right_comm (i a b : Usage) :
    Usage.accumulate (Usage.accumulate i a) b
      = Usage.accumulate (Usage.accumulate i b) a := by
  rw [accumulate_assoc_aux, accumulate_assoc_aux, accumulate_comm_aux a b]

/-- Helper: folding `accumulate` over a list is invariant under
permutation of the list. -/
lemma foldl_accumulate_perm {l₁ l₂ : List Usage} (h : l₁.Perm l₂) :
    ∀ init : Usage,
      List.foldl Usage.accumulate init l₁ = List.foldl Usage.accumulate init l₂ := by
  induction h with
  | nil => intro init; rfl
  | cons x _ ih =>
      intro init
      simpa using ih (Usage.accumulate init x)
  | swap x y l =>
      intro init
      simp only [List.foldl_cons]
      rw [accumulate_right_comm]
  | trans _ _ ih₁ ih₂ =>
      intro init
      rw [ih₁ init, ih₂ init]

end Anda

namespace Anda

/-- Claim C1: `Usage.accumulate` updates each of the three counters
independently by saturating addition: each resulting field equals
`min (old + other, u64::MAX)`; under the `u64` typing bound it never
decreases the receiver's field, and accumulating 1 more input token
into a `Usage` whose `input_tokens` is `u64::MAX` yields `u64::MAX`. -/
theorem usage_accumulate_saturating :
    (∀ u o : Usage,
      (Usage.accumulate u o).input_tokens = min (u.input_tokens + o.input_tokens) U64_MAX ∧
      (Usage.accumulate u o).output_tokens = min (u.output_tokens + o.output_tokens) U64_MAX ∧
      (Usage.accumulate u o).requests = min (u.requests + o.requests) U64_MAX) ∧
    (∀ u o : Usage, u.Wf →
      u.input_tokens ≤ (Usage.accumulate u o).input_tokens ∧
      u.output_tokens ≤ (Usage.accumulate u o).output_tokens ∧
      u.requests ≤ (Usage.accumulate u o).requests) ∧
    (∀ u : Usage, u.input_tokens = U64_MAX →
      (Usage.accumulate u ⟨1, 0, 0⟩).input_tokens = U64_MAX) := by
  refine ⟨fun u o => ⟨rfl, rfl, rfl⟩, fun u o hu => ?_, fun u hu => ?_⟩
  · obtain ⟨h₁, h₂, h₃⟩ := hu
    simp only [Usage.accumulate, saturatingAdd]
    omega
  · simp only [Usage.accumulate, saturatingAdd, hu]
    omega

/-- Witness for C1 at concrete inputs, including the saturation example
`u64::MAX + 1 = u64::MAX`. -/
theorem usage_accumulate_saturating_witness :
    (5 : Nat) ≤ (Usage.accumulate ⟨5, 6, 7⟩ ⟨1, 2, 3⟩).input_tokens ∧
    (Usage.accumulate ⟨U64_MAX, 0, 0⟩ ⟨1, 0, 0⟩).input_tokens = U64_MAX :=
  ⟨(usage_accumulate_saturating.2.1 ⟨5, 6, 7⟩ ⟨1, 2, 3⟩ (by decide)).1,
   usage_accumulate_saturating.2.2 ⟨U64_MAX, 0, 0⟩ rfl⟩

/-- Claim C2: `Usage.accumulate` is commutative: accumulating `b` into
`a` yields the same counter triple as accumulating `a` into `b`. -/
theorem usage_accumulate_comm (a b : Usage) :
    Usage.accumulate a b = Usage.accumulate b a :=
  accumulate_comm_aux a b

/-- Claim C7: a zero-valued `Usage` is the identity for accumulation,
for every `Usage` within the `u64` typing bound. -/
theorem usage_default_identity (u : Usage) (h : u.Wf) :
    Usage.accumulate u Usage.default = u ∧ Usage.accumulate Usage.default u = u := by
  obtain ⟨i, o, r⟩ := u
  simp only [Usage.Wf] at h
  constructor <;>
    · simp only [Usage.accumulate, Usage.default, saturatingAdd, Usage.mk.injEq]
      refine ⟨?_, ?_, ?_⟩ <;> omega

/-- Witness for C7 at a concrete `Usage`. -/
theorem usage_default_identity_witness :
    Usage.accumulate ⟨10, 20, 30⟩ Usage.default = ⟨10, 20, 30⟩ ∧
    Usage.accumulate Usage.default ⟨10, 20, 30⟩ = ⟨10, 20, 30⟩ :=
  usage_default_identity ⟨10, 20, 30⟩ (by decide)

/-- Claim C8: `Usage` merging is associative as well as commutative, so
folding any permutation of a finite collection of `Usage` values into a
ledger yields the same final totals. -/
theorem usage_accumulate_assoc_comm_order_independent :
    (∀ a b c : Usage,
      Usage.accumulate (Usage.accumulate a b) c
        = Usage.accumulate a (Usage.accumulate b c)) ∧
    (∀ a b : Usage, Usage.accumulate a b = Usage.accumulate b a) ∧
    (∀ (init : Usage) (l₁ l₂ : List Usage), l₁.Perm l₂ →
      List.foldl Usage.accumulate init l₁ = List.foldl Usage.accumulate init l₂) :=
  ⟨accumulate_assoc_aux, accumulate_comm_aux,
   fun init _ _ h => foldl_accumulate_perm h init⟩

/-- Witness for C8: two concrete merge orders of the same collection
give the same totals. -/
theorem usage_accumulate_order_independent_witness :
    List.foldl Usage.accumulate ⟨0, 0, 0⟩ [⟨1, 2, 3⟩, ⟨4, 5, 6⟩]
      = List.foldl Usage.accumulate ⟨0, 0, 0⟩ [⟨4, 5, 6⟩, ⟨1, 2, 3⟩] :=
  usage_accumulate_assoc_comm_order_independent.2.2 ⟨0, 0, 0⟩
    [⟨1, 2, 3⟩, ⟨4, 5, 6⟩] [⟨4, 5, 6⟩, ⟨1, 2, 3⟩] (List.Perm.swap _ _ _)

/-- Claim C4: `name_with_prefix` prepends the prefix to the name and
leaves description, parameters and strict unchanged; applying two
prefixes composes left-to-right, so `"a_"` then `"b_"` on a definition
named `"x"` yields the name `"b_a_x"`. -/
theorem function_definition_prefixing :
    (∀ (d : FunctionDefinition) (p : String),
      FunctionDefinition.name_with_prefix d p
        = { name := p ++ d.name, description := d.description,
            parameters := d.parameters, strict := d.strict }) ∧
    (∀ (d : FunctionDefinition) (p₁ p₂ : String),
      FunctionDefinition.name_with_prefix ( FunctionDefinition.name_with_prefix d p₁) p₂
        = { name := p₂ ++ (p₁ ++ d.name), description := d.description,
            parameters := d.parameters, strict := d.strict }) ∧
    ( FunctionDefinition.name_with_prefix
        ( FunctionDefinition.name_with_prefix ⟨"x", "doc", Json.null, none⟩ "a_") "b_").name
      = "b_a_x" :=
  ⟨fun _ _ => rfl, fun _ _ _ => rfl, rfl⟩

/-- Claim C5: `AgentInput::new` and `ToolInput::new` set the given
required fields and leave `resources` and `meta` absent. -/
theorem new_inputs_leave_optionals_absent :
    (∀ name prompt : String,
      AgentInput.new name prompt
        = { name := name, prompt := prompt, resources := none, meta := none }) ∧
    (∀ (T : Type) (name : String) (args : T),
      ToolInput.new name args
        = { name := name, args := args, resources := none, meta := none }) :=
  ⟨fun _ _ => rfl, fun _ _ _ => rfl⟩

/-- Claim C6: `ToolOutput::new` sets the given output, a default (all
zero) usage, and no resources. -/
theorem tool_output_new_defaults :
    (∀ (T : Type) (output : T),
      ToolOutput.new output
        = { output := output, resources := none, usage := Usage.default }) ∧
    Usage.default = ⟨0, 0, 0⟩ :=
  ⟨fun _ _ => rfl, rfl⟩

/-- Claim C9: the module exposes the public constant `ANONYMOUS`, equal
to the platform's anonymous principal value. -/
theorem anonymous_constant_is_anonymous_principal :
    ANONYMOUS = Principal.anonymous ∧ ANONYMOUS.bytes = [4] :=
  ⟨rfl, rfl⟩

/-- Claim C10: `evaluate_tokens` is the UTF-8 byte length divided by 3
rounded down; it is 0 on contents shorter than 3 bytes, and monotone in
the byte length. -/
theorem evaluate_tokens_byte_length_div_three (s : String) :
    evaluate_tokens s = s.utf8ByteSize / 3 ∧
    (s.utf8ByteSize < 3 → evaluate_tokens s = 0) ∧
    (∀ t : String, s.utf8ByteSize ≤ t.utf8ByteSize →
      evaluate_tokens s ≤ evaluate_tokens t) :=
  ⟨rfl,
   fun h => by unfold evaluate_tokens; omega,
   fun t h => Nat.div_le_div_right h⟩

/-- Helper: `Usage` serialization round-trips (all three counters are
required fields). -/
lemma usage_json_roundtrip (u : Usage) :
    Usage.fromJson (Usage.toJson u) = some u := by
  obtain ⟨i, o, r⟩ := u
  rfl

/-- Claim C3 counterexample: serializing a `RequestMeta` whose optional
fields are all absent still emits the `engine` key, bound to `null` —
`engine` lacks the `skip_serializing_if` attribute in the source, so it
is not "omitted entirely from the serialized form". -/
theorem requestMeta_engine_emitted_as_null :
    RequestMeta.toJson ⟨none, none, none⟩ = Json.obj [("engine", Json.null)] ∧
    Json.keys (RequestMeta.toJson ⟨none, none, none⟩) = ["engine"] :=
  ⟨rfl, rfl⟩

/-- Claim C3 (amended): for every envelope and sub-structure, every
optional field that carries the skip attribute is omitted entirely from
the serialized form when absent, and decoding reconstructs the same
absent values; `RequestMeta.engine`, which has no skip attribute, is
instead emitted as `null` when absent and still decodes back to an
absent value. -/
theorem optional_fields_omitted_when_absent :
    (RequestMeta.toJson ⟨none, none, none⟩ = Json.obj [("engine", Json.null)] ∧
     RequestMeta.fromJson (RequestMeta.toJson ⟨none, none, none⟩)
       = some ⟨none, none, none⟩) ∧
    (∀ name prompt : String,
      AgentInput.toJson ⟨name, prompt, none, none⟩
        = Json.obj [("name", Json.str name), ("prompt", Json.str prompt)] ∧
      AgentInput.fromJson (AgentInput.toJson ⟨name, prompt, none, none⟩)
        = some ⟨name, prompt, none, none⟩) ∧
    (∀ (content : String) (u : Usage),
      AgentOutput.toJson ⟨content, u, none, none, none, none, none⟩
        = Json.obj [("content", Json.str content), ("usage", Usage.toJson u)] ∧
      AgentOutput.fromJson (AgentOutput.toJson ⟨content, u, none, none, none, none, none⟩)
        = some ⟨content, u, none, none, none, none, none⟩) ∧
    (∀ (T : Type) (encT : T → Json) (decT : Json → Option T),
      (∀ t, decT (encT t) = some t) →
      ∀ (name : String) (args : T),
        ToolInput.toJson encT ⟨name, args, none, none⟩
          = Json.obj [("name", Json.str name), ("args", encT args)] ∧
        ToolInput.fromJson decT (ToolInput.toJson encT ⟨name, args, none, none⟩)
          = some ⟨name, args, none, none⟩) ∧
    (∀ (T : Type) (encT : T → Json) (decT : Json → Option T),
      (∀ t, decT (encT t) = some t) →
      ∀ (output : T) (u : Usage),
        ToolOutput.toJson encT ⟨output, none, u⟩
          = Json.obj [("output", encT output), ("usage", Usage.toJson u)] ∧
        ToolOutput.fromJson decT (ToolOutput.toJson encT ⟨output, none, u⟩)
          = some ⟨output, none, u⟩) ∧
    (∀ id name args : String,
      ToolCall.toJson ⟨id, name, args, none⟩
        = Json.obj [("id", Json.str id), ("name", Json.str name),
                    ("args", Json.str args)] ∧
      ToolCall.fromJson (ToolCall.toJson ⟨id, name, args, none⟩)
        = some ⟨id, name, args, none⟩) ∧
    (∀ (name description : String) (params : Json),
      FunctionDefinition.toJson ⟨name, description, params, none⟩
        = Json.obj [("name", Json.str name), ("description", Json.str description),
                    ("parameters", params)] ∧
      FunctionDefinition.fromJson
          ( FunctionDefinition.toJson ⟨name, description, params, none⟩)
        = some ⟨name, description, params, none⟩) := by
  refine ⟨⟨rfl, rfl⟩, fun name prompt => ⟨rfl, rfl⟩, fun content u => ⟨rfl, ?_⟩,
    fun T encT decT h name args => ⟨rfl, ?_⟩,
    fun T encT decT h output u => ⟨rfl, ?_⟩,
    fun id name args => ⟨rfl, rfl⟩,
    fun name description params => ⟨rfl, ?_⟩⟩
  · obtain ⟨i, o, r⟩ := u; rfl
  · simp [ToolInput.toJson, ToolInput.fromJson, optField, Json.objFields, Json.asStr,
      decodeOptField, List.lookup, h]
  · simp [ToolOutput.toJson, ToolOutput.fromJson, optField, Json.objFields, Json.asStr,
      decodeOptField, List.lookup, h, usage_json_roundtrip]
  · simp [FunctionDefinition.toJson, FunctionDefinition.fromJson, optField,
      Json.objFields, Json.asStr, decodeOptField, List.lookup]

/-- Witness for C3 (amended) at concrete payloads, discharging the
payload-codec hypotheses with the identity codec on JSON values. -/
theorem optional_fields_omitted_witness :
    ToolInput.fromJson (fun j => some j)
        (ToolInput.toJson (fun j => j) ⟨"t", Json.null, none, none⟩)
      = some ⟨"t", Json.null, none, none⟩ ∧
    ToolOutput.fromJson (fun j => some j)
        (ToolOutput.toJson (fun j => j) ⟨Json.num 1, none, ⟨1, 2, 3⟩⟩)
      = some ⟨Json.num 1, none, ⟨1, 2, 3⟩⟩ :=
  ⟨(optional_fields_omitted_when_absent.2.2.2.1 Json (fun j => j) (fun j => some j)
      (fun _ => rfl) "t" Json.null).2,
   (optional_fields_omitted_when_absent.2.2.2.2.1 Json (fun j => j) (fun j => some j)
      (fun _ => rfl) (Json.num 1) ⟨1, 2, 3⟩).2⟩

/-- Witness for C10 at concrete strings. -/
theorem evaluate_tokens_byte_length_witness :
    evaluate_tokens "ab" = 0 ∧ evaluate_tokens "ab" ≤ evaluate_tokens "abcd" :=
  ⟨(evaluate_tokens_byte_length_div_three "ab").2.1 (by decide),
   (evaluate_tokens_byte_length_div_three "ab").2.2 "abcd" (by decide)⟩

end Anda
